import Mathlib

/-!
Shallow embedding of `drivers/pci/cxl.c` (CXL support: DVSEC capability
discovery and locked read-modify-write feature toggling), together with
proofs of the specification's claims about it.

Modelling conventions:
* 16-bit config-space registers are `Nat` values; every register read and
  every register write truncates to 16 bits (`% 2 ^ 16`), as the hardware
  registers are 16 bits wide.
* Config space is a function from byte address to register value, carried in
  a `RegState` together with an access trace: a count of reads performed and
  the list of `(address, value)` pairs of attempted writes.
* The external transport (`pci_read_config_word` / `pci_write_config_word`)
  can fail.  Failure is resolved by explicit outcome parameters: a failed
  read returns a nonzero status and an arbitrary junk buffer value, a failed
  write returns a nonzero status and leaves the register unchanged (the
  attempt is still recorded in the trace).
-/

/-- C macro `BIT(x)` from the kernel headers. -/
def BIT (x : Nat) : Nat := 1 <<< x

/-- `#define PCI_DVSEC_VENDOR_ID_CXL 0x1e98`. -/
def PCI_DVSEC_VENDOR_ID_CXL : Nat := 0x1e98

/-- `#define PCI_DVSEC_ID_CXL_DEV 0x0`. -/
def PCI_DVSEC_ID_CXL_DEV : Nat := 0x0

/-- `#define PCI_CXL_CTRL 0x0c` — control register offset. -/
def PCI_CXL_CTRL : Nat := 0x0c

/-- `#define PCI_CXL_LOCK 0x14` — lock register offset. -/
def PCI_CXL_LOCK : Nat := 0x14

/-- `#define PCI_CXL_CACHE BIT(0)`. -/
def PCI_CXL_CACHE : Nat := BIT 0

/-- `#define PCI_CXL_MEM BIT(2)`. -/
def PCI_CXL_MEM : Nat := BIT 2

/-- `#define PCI_CXL_CONFIG_LOCK BIT(0)`. -/
def PCI_CXL_CONFIG_LOCK : Nat := BIT 0

/-- `PCI_DVSEC_HEADER1` offset (0x4) from `<linux/pci_regs.h>`: the word
holding the DVSEC vendor id. -/
def PCI_DVSEC_HEADER1 : Nat := 0x4

/-- `PCI_DVSEC_HEADER2` offset (0x8) from `<linux/pci_regs.h>`: the word
holding the DVSEC id. -/
def PCI_DVSEC_HEADER2 : Nat := 0x8

/-- `PCI_EXP_TYPE_RC_END 0x9` from `<linux/pci_regs.h>`: root complex
integrated endpoint. -/
def PCI_EXP_TYPE_RC_END : Nat := 0x9

/-- Kernel errno `EINVAL` (22); the driver returns `-EINVAL`. -/
def EINVAL : Int := 22

/-- The fields of `struct pci_dev` that `cxl.c` consults: the cached DVSEC
capability offset `dev->cxl_cap` (0 meaning not discovered), `dev->devfn`,
and `pci_pcie_type(dev)`. -/
structure PciDev where
  cxl_cap : Nat
  devfn : Nat
  pcie_type : Nat

/-- Config-space register state plus an access trace: `regs` maps byte
addresses to register values, `reads` counts reads performed, and `writes`
lists the `(address, value)` of each attempted write in order. -/
structure RegState where
  regs : Nat → Nat
  reads : Nat
  writes : List (Nat × Nat)

/-- Transport outcome of one `pci_read_config_word` call: whether it
succeeds, the (nonzero) status it returns on failure, and the junk value it
leaves in the caller's buffer on failure. -/
structure ReadOutcome where
  ok : Bool
  err : Int
  junk : Nat

/-- Transport outcome of one `pci_write_config_word` call: whether it
succeeds and the (nonzero) status it returns on failure. -/
structure WriteOutcome where
  ok : Bool
  err : Int

/-- `pci_read_config_word(dev, addr, &v)`: returns `(status, value)` and the
state with the read counted.  On success the value is the 16-bit register
content and the status 0; on failure the value is the outcome's junk (still
truncated to 16 bits) and the status the outcome's error code. -/
def readWord (o : ReadOutcome) (s : RegState) (addr : Nat) :
    (Int × Nat) × RegState :=
  ((if o.ok then 0 else o.err,
    (if o.ok then s.regs addr else o.junk) % 2 ^ 16),
   { s with reads := s.reads + 1 })

/-- `pci_write_config_word(dev, addr, v)`: returns the status and the state
with the attempt traced; the register changes (to the 16-bit truncation of
`v`) only when the write succeeds. -/
def writeWord (o : WriteOutcome) (s : RegState) (addr v : Nat) :
    Int × RegState :=
  (if o.ok then 0 else o.err,
   { s with
      regs := if o.ok then (fun a => if a = addr then v % 2 ^ 16 else s.regs a)
              else s.regs,
      writes := s.writes ++ [(addr, v % 2 ^ 16)] })

/-- Transport outcomes for one `pci_cxl_unlock` / `pci_cxl_lock` call (one
read and one write of the lock register; both return values are ignored by
the source). -/
structure LockStepOutcome where
  rd : ReadOutcome
  wr : WriteOutcome

/-- `pci_cxl_unlock(dev)`: read the lock register, clear
`PCI_CXL_CONFIG_LOCK`, write it back; return values ignored.  `reg &= ~bit`
on a `u16` is modelled as `&&& (0xffff ^^^ bit)`. -/
def pci_cxl_unlock (o : LockStepOutcome) (cxl : Nat) (s : RegState) :
    RegState :=
  let r := readWord o.rd s (cxl + PCI_CXL_LOCK)
  let lock := r.1.2 &&& (0xffff ^^^ PCI_CXL_CONFIG_LOCK)
  (writeWord o.wr r.2 (cxl + PCI_CXL_LOCK) lock).2

/-- `pci_cxl_lock(dev)`: read the lock register, set
`PCI_CXL_CONFIG_LOCK`, write it back; return values ignored. -/
def pci_cxl_lock (o : LockStepOutcome) (cxl : Nat) (s : RegState) :
    RegState :=
  let r := readWord o.rd s (cxl + PCI_CXL_LOCK)
  let lock := r.1.2 ||| PCI_CXL_CONFIG_LOCK
  (writeWord o.wr r.2 (cxl + PCI_CXL_LOCK) lock).2

/-- Transport outcomes for the at most six accesses one
`pci_cxl_enable_disable_feature` call performs: the unlock pair, the control
read, the control write, and the re-lock pair. -/
structure GateOutcome where
  unlock : LockStepOutcome
  ctrlRead : ReadOutcome
  ctrlWrite : WriteOutcome
  relock : LockStepOutcome

/-- All six transport accesses of one gate call succeed. -/
def GateOutcome.allOk (o : GateOutcome) : Prop :=
  o.unlock.rd.ok = true ∧ o.unlock.wr.ok = true ∧ o.ctrlRead.ok = true ∧
  o.ctrlWrite.ok = true ∧ o.relock.rd.ok = true ∧ o.relock.wr.ok = true

instance (o : GateOutcome) : Decidable o.allOk := by
  unfold GateOutcome.allOk
  infer_instance

/-- `pci_cxl_enable_disable_feature(dev, enable, feature)` from
`drivers/pci/cxl.c`: check `dev->cxl_cap != 0`, check `devfn == 0` and
PCIe type `PCI_EXP_TYPE_RC_END` (else `-EINVAL`), then unlock, read the
control register (`if (ret) goto lock`), set or clear `feature`, write it
back, and re-lock on every exit path, returning the last captured status. -/
def pci_cxl_enable_disable_feature (o : GateOutcome) (dev : PciDev)
    (enable : Bool) (feature : Nat) (s : RegState) : Int × RegState :=
  let cxl := dev.cxl_cap
  if dev.cxl_cap = 0 then (-EINVAL, s)
  else if dev.devfn ≠ 0 ∨ dev.pcie_type ≠ PCI_EXP_TYPE_RC_END then
    (-EINVAL, s)
  else
    let s1 := pci_cxl_unlock o.unlock cxl s
    let r := readWord o.ctrlRead s1 (cxl + PCI_CXL_CTRL)
    let ret := r.1.1
    let reg := r.1.2
    if ret ≠ 0 then (ret, pci_cxl_lock o.relock cxl r.2)
    else
      let reg2 := if enable then reg ||| feature
                  else reg &&& (0xffff ^^^ feature)
      let w := writeWord o.ctrlWrite r.2 (cxl + PCI_CXL_CTRL) reg2
      (w.1, pci_cxl_lock o.relock cxl w.2)

/-- `pci_cxl_mem_enable(dev)`. -/
def pci_cxl_mem_enable (o : GateOutcome) (dev : PciDev) (s : RegState) :
    Int × RegState :=
  pci_cxl_enable_disable_feature o dev true PCI_CXL_MEM s

/-- `pci_cxl_mem_disable(dev)`: returns `void` in C — the status of the
underlying gate call is discarded, only the state effect remains. -/
def pci_cxl_mem_disable (o : GateOutcome) (dev : PciDev) (s : RegState) :
    RegState :=
  (pci_cxl_enable_disable_feature o dev false PCI_CXL_MEM s).2

/-- `pci_cxl_cache_enable(dev)`. -/
def pci_cxl_cache_enable (o : GateOutcome) (dev : PciDev) (s : RegState) :
    Int × RegState :=
  pci_cxl_enable_disable_feature o dev true PCI_CXL_CACHE s

/-- `pci_cxl_cache_disable(dev)`: returns `void` in C — the status of the
underlying gate call is discarded, only the state effect remains. -/
def pci_cxl_cache_disable (o : GateOutcome) (dev : PciDev) (s : RegState) :
    RegState :=
  (pci_cxl_enable_disable_feature o dev false PCI_CXL_CACHE s).2

/-- `pci_find_cxl_capability(dev)`: walk the DVSEC extended-capability
chain (the successive positions returned by the external
`pci_find_next_ext_capability`, in traversal order, given here as `chain`);
at each position read the two header words and return the position on a
compound-key match, else continue; return 0 when the chain is exhausted. -/
def pci_find_cxl_capability (regs : Nat → Nat) (chain : List Nat) : Nat :=
  match chain with
  | [] => 0
  | pos :: rest =>
    let vendor := regs (pos + PCI_DVSEC_HEADER1) % 2 ^ 16
    let id := regs (pos + PCI_DVSEC_HEADER2) % 2 ^ 16
    if vendor = PCI_DVSEC_VENDOR_ID_CXL ∧ id = PCI_DVSEC_ID_CXL_DEV then pos
    else pci_find_cxl_capability regs rest

/-- Written from the spec's words, for comparison with the source
function: a position matches when its two header words equal the compound
key (vendor `0x1e98`, sub-id `0x0`). -/
def cxlKeyMatch (regs : Nat → Nat) (pos : Nat) : Bool :=
  regs (pos + PCI_DVSEC_HEADER1) % 2 ^ 16 == PCI_DVSEC_VENDOR_ID_CXL &&
  regs (pos + PCI_DVSEC_HEADER2) % 2 ^ 16 == PCI_DVSEC_ID_CXL_DEV

/-- Concrete config space for the specified discovery scenario: a DVSEC
entry with vendor `0x1234`, id `0x0` at position `0x40` and one with vendor
`0x1e98`, id `0x0` at position `0x60`. -/
def chainRegsC3 : Nat → Nat := fun a =>
  if a = 0x44 then 0x1234
  else if a = 0x48 then 0x0
  else if a = 0x64 then 0x1e98
  else if a = 0x68 then 0x0
  else 0

/-- Concrete config space with vendor `0x1e98` but id `5` at position
`0x40`. -/
def wrongIdRegs : Nat → Nat := fun a =>
  if a = 0x44 then 0x1e98
  else if a = 0x48 then 5
  else 0

/-- Gate outcome in which all six transport accesses succeed. -/
def oAllW : GateOutcome :=
  ⟨⟨⟨true, 0, 0⟩, ⟨true, 0⟩⟩, ⟨true, 0, 0⟩, ⟨true, 0⟩,
   ⟨⟨true, 0, 0⟩, ⟨true, 0⟩⟩⟩

/-- Gate outcome in which the control-register read fails with status 5 and
every other access succeeds. -/
def oReadFailW : GateOutcome :=
  ⟨⟨⟨true, 0, 0⟩, ⟨true, 0⟩⟩, ⟨false, 5, 0⟩, ⟨true, 0⟩,
   ⟨⟨true, 0, 0⟩, ⟨true, 0⟩⟩⟩

/-- Device with discovered capability at `0x40`, devfn 0, root complex
integrated endpoint. -/
def devW : PciDev := ⟨0x40, 0, 0x9⟩

/-- Device with discovered capability at `0x40` but devfn 1. -/
def devBadFnW : PciDev := ⟨0x40, 1, 0x9⟩

/-- Device with no discovered capability (offset 0). -/
def devNoCapW : PciDev := ⟨0, 0, 0x9⟩

/-- Register state with all registers zero and an empty access trace. -/
def sZeroW : RegState := ⟨fun _ => 0, 0, []⟩

/-- Register state in which the control register of the capability at
`0x40` reads `0x0003` and everything else reads zero. -/
def sCtrl3W : RegState :=
  ⟨fun a => if a = 0x40 + PCI_CXL_CTRL then 3 else 0, 0, []⟩

/-- Register state in which the control register of the capability at
`0x40` reads `0x0004` (memory-access bit already set) and everything else
reads zero. -/
def sCtrl4W : RegState :=
  ⟨fun a => if a = 0x40 + PCI_CXL_CTRL then 4 else 0, 0, []⟩

/-- Claim C2: for every capability chain, `pci_find_cxl_capability` returns
the first position in traversal order whose two header words equal the
compound key (vendor `0x1e98`, sub-id `0x0`), and returns 0 when no
position in the chain matches — i.e. it computes
`(chain.find? (cxlKeyMatch regs)).getD 0`. -/
theorem pci_find_cxl_capability_eq_first_match (regs : Nat → Nat)
    (chain : List Nat) :
    pci_find_cxl_capability regs chain =
      ((chain.find? (cxlKeyMatch regs)).getD 0) := by
  induction chain with
  | nil => rfl
  | cons pos rest ih =>
    by_cases h : cxlKeyMatch regs pos = true
    · have h2 : regs (pos + PCI_DVSEC_HEADER1) % 2 ^ 16 =
          PCI_DVSEC_VENDOR_ID_CXL ∧
          regs (pos + PCI_DVSEC_HEADER2) % 2 ^ 16 = PCI_DVSEC_ID_CXL_DEV := by
        simpa [cxlKeyMatch] using h
      simp only [pci_find_cxl_capability]
      rw [if_pos h2, List.find?_cons_of_pos _ h, Option.getD_some]
    · have h2 : ¬ (regs (pos + PCI_DVSEC_HEADER1) % 2 ^ 16 =
          PCI_DVSEC_VENDOR_ID_CXL ∧
          regs (pos + PCI_DVSEC_HEADER2) % 2 ^ 16 = PCI_DVSEC_ID_CXL_DEV) := by
        simpa [cxlKeyMatch] using h
      simp only [pci_find_cxl_capability]
      rw [if_neg h2, List.find?_cons_of_neg _ h]
      exact ih

/-- Claim C3: an entry whose vendor word is the CXL vendor `0x1e98` but
whose id word differs from `0x0` is not matched — scanning continues past
it — and in the concrete scenario
`[{vendor 0x1234, id 0}@0x40, {vendor 0x1e98, id 0}@0x60]` discovery
returns `0x60`. -/
theorem pci_find_cxl_capability_skips_wrong_id :
    (∀ (regs : Nat → Nat) (pos : Nat) (rest : List Nat),
      regs (pos + PCI_DVSEC_HEADER1) % 2 ^ 16 = PCI_DVSEC_VENDOR_ID_CXL →
      regs (pos + PCI_DVSEC_HEADER2) % 2 ^ 16 ≠ PCI_DVSEC_ID_CXL_DEV →
      pci_find_cxl_capability regs (pos :: rest) =
        pci_find_cxl_capability regs rest) ∧
    pci_find_cxl_capability chainRegsC3 [0x40, 0x60] = 0x60 := by
  constructor
  · intro regs pos rest hv hid
    simp only [pci_find_cxl_capability]
    rw [if_neg (fun hc => hid hc.2)]
  · decide

/-- Witness for C3: at a concrete chain whose head has the CXL vendor but
id `5`, the scan skips the head. -/
theorem pci_find_cxl_capability_skips_wrong_id_witness :
    pci_find_cxl_capability wrongIdRegs [0x40] =
      pci_find_cxl_capability wrongIdRegs [] :=
  pci_find_cxl_capability_skips_wrong_id.1 wrongIdRegs 0x40 []
    (by decide) (by decide)

/-- Helper: whatever value the lock-register read of `pci_cxl_lock` yields
(success or junk), the value written back has `PCI_CXL_CONFIG_LOCK` (bit 0)
set, so after a successful lock-register write the bit is set in the
register state. -/
theorem lock_write_sets_bit (o : LockStepOutcome) (cxl : Nat) (s : RegState)
    (hw : o.wr.ok = true) :
    ((pci_cxl_lock o cxl s).regs (cxl + PCI_CXL_LOCK)).testBit 0 = true := by
  have key : ∀ x : Nat, (x ||| 1) % 65536 % 2 = 1 := by
    intro x
    rw [Nat.mod_mod_of_dvd _ (by norm_num)]
    have h : (x ||| 1).testBit 0 = true := by
      rw [Nat.testBit_lor]
      simp
    rw [Nat.testBit_zero] at h
    exact of_decide_eq_true h
  simp [pci_cxl_lock, readWord, writeWord, hw, Nat.testBit_zero,
    PCI_CXL_CONFIG_LOCK, BIT, Nat.one_shiftLeft, key]

/-- Claim C1: on every invocation of `pci_cxl_enable_disable_feature` that
passes the capability-present and topology preconditions, the re-lock step
runs on every exit path, so (given the re-lock write is performed by the
transport) the lock bit is set in the register state on return — for every
outcome of the control-register read and the control-register write. -/
theorem gate_lock_bit_set_on_return (o : GateOutcome) (dev : PciDev)
    (enable : Bool) (feature : Nat) (s : RegState)
    (hcap : dev.cxl_cap ≠ 0) (hfn : dev.devfn = 0)
    (hty : dev.pcie_type = PCI_EXP_TYPE_RC_END)
    (hw : o.relock.wr.ok = true) :
    (((pci_cxl_enable_disable_feature o dev enable feature s).2).regs
        (dev.cxl_cap + PCI_CXL_LOCK)).testBit 0 = true := by
  simp only [pci_cxl_enable_disable_feature]
  rw [if_neg hcap, if_neg (by simp [hfn, hty])]
  split
  · exact lock_write_sets_bit _ _ _ hw
  · exact lock_write_sets_bit _ _ _ hw

/-- Witness for C1: a concrete all-succeeding invocation on a conforming
device leaves the lock bit set. -/
theorem gate_lock_bit_set_on_return_witness :
    (((pci_cxl_enable_disable_feature oAllW devW true PCI_CXL_MEM
        sZeroW).2).regs (devW.cxl_cap + PCI_CXL_LOCK)).testBit 0 = true :=
  gate_lock_bit_set_on_return oAllW devW true PCI_CXL_MEM sZeroW
    (by decide) rfl rfl rfl

/-- Claim C6: every toggle operation on a device with a discovered
capability offset but `devfn ≠ 0` or a PCIe type other than root complex
integrated endpoint returns `-EINVAL` and leaves the register state
untouched (in particular zero register reads and zero register writes,
since the returned state equals the input state, trace included). -/
theorem gate_unsupported_topology (o : GateOutcome) (dev : PciDev)
    (s : RegState) (hcap : dev.cxl_cap ≠ 0)
    (h : dev.devfn ≠ 0 ∨ dev.pcie_type ≠ PCI_EXP_TYPE_RC_END) :
    pci_cxl_mem_enable o dev s = (-EINVAL, s) ∧
    pci_cxl_mem_disable o dev s = s ∧
    pci_cxl_cache_enable o dev s = (-EINVAL, s) ∧
    pci_cxl_cache_disable o dev s = s := by
  have key : ∀ (enable : Bool) (feature : Nat),
      pci_cxl_enable_disable_feature o dev enable feature s = (-EINVAL, s) := by
    intro enable feature
    unfold pci_cxl_enable_disable_feature
    rw [if_neg hcap, if_pos h]
  refine ⟨key true _, ?_, key true _, ?_⟩ <;>
    simp [pci_cxl_mem_disable, pci_cxl_cache_disable, key]

/-- Witness for C6: a concrete device with devfn 1. -/
theorem gate_unsupported_topology_witness :
    pci_cxl_mem_enable oAllW devBadFnW sZeroW = (-EINVAL, sZeroW) ∧
    pci_cxl_mem_disable oAllW devBadFnW sZeroW = sZeroW ∧
    pci_cxl_cache_enable oAllW devBadFnW sZeroW = (-EINVAL, sZeroW) ∧
    pci_cxl_cache_disable oAllW devBadFnW sZeroW = sZeroW :=
  gate_unsupported_topology oAllW devBadFnW sZeroW (by decide)
    (Or.inl (by decide))

/-- Claim C7: every toggle operation on a device whose cached capability
offset is 0 returns `-EINVAL` and leaves the register state untouched
(zero register reads and zero register writes, since the returned state
equals the input state, trace included). -/
theorem gate_capability_absent (o : GateOutcome) (dev : PciDev)
    (s : RegState) (hcap : dev.cxl_cap = 0) :
    pci_cxl_mem_enable o dev s = (-EINVAL, s) ∧
    pci_cxl_mem_disable o dev s = s ∧
    pci_cxl_cache_enable o dev s = (-EINVAL, s) ∧
    pci_cxl_cache_disable o dev s = s := by
  have key : ∀ (enable : Bool) (feature : Nat),
      pci_cxl_enable_disable_feature o dev enable feature s = (-EINVAL, s) := by
    intro enable feature
    unfold pci_cxl_enable_disable_feature
    rw [if_pos hcap]
  refine ⟨key true _, ?_, key true _, ?_⟩ <;>
    simp [pci_cxl_mem_disable, pci_cxl_cache_disable, key]

/-- Witness for C7: a concrete device with no discovered capability. -/
theorem gate_capability_absent_witness :
    pci_cxl_mem_enable oAllW devNoCapW sZeroW = (-EINVAL, sZeroW) ∧
    pci_cxl_mem_disable oAllW devNoCapW sZeroW = sZeroW ∧
    pci_cxl_cache_enable oAllW devNoCapW sZeroW = (-EINVAL, sZeroW) ∧
    pci_cxl_cache_disable oAllW devNoCapW sZeroW = sZeroW :=
  gate_capability_absent oAllW devNoCapW sZeroW rfl

/-- Claim C8: for every device state and every transport outcome, the
disable variants return only the state effect of the underlying
`pci_cxl_enable_disable_feature` call (its status is discarded — `void` in
C — so no failure status can reach their caller), while the enable
variants return exactly the status and state of the underlying call. -/
theorem disable_swallows_enable_propagates (o : GateOutcome) (dev : PciDev)
    (s : RegState) :
    pci_cxl_mem_disable o dev s =
      (pci_cxl_enable_disable_feature o dev false PCI_CXL_MEM s).2 ∧
    pci_cxl_cache_disable o dev s =
      (pci_cxl_enable_disable_feature o dev false PCI_CXL_CACHE s).2 ∧
    pci_cxl_mem_enable o dev s =
      pci_cxl_enable_disable_feature o dev true PCI_CXL_MEM s ∧
    pci_cxl_cache_enable o dev s =
      pci_cxl_enable_disable_feature o dev true PCI_CXL_CACHE s :=
  ⟨rfl, rfl, rfl, rfl⟩

/-- Claim C5: when the control-register read fails (with a nonzero status),
the gate performs no control-register write (the control register is
unchanged and the only write attempts are the unlock and re-lock writes of
the lock register), the re-lock step still executes (its write attempt is
the last trace entry), and the read's failure status is returned. -/
theorem gate_read_failure_skips_write (o : GateOutcome) (dev : PciDev)
    (enable : Bool) (feature : Nat) (s : RegState)
    (hcap : dev.cxl_cap ≠ 0) (hfn : dev.devfn = 0)
    (hty : dev.pcie_type = PCI_EXP_TYPE_RC_END)
    (hro : o.ctrlRead.ok = false) (herr : o.ctrlRead.err ≠ 0) :
    (pci_cxl_enable_disable_feature o dev enable feature s).1 =
      o.ctrlRead.err ∧
    (pci_cxl_enable_disable_feature o dev enable feature s).2.regs
        (dev.cxl_cap + PCI_CXL_CTRL) =
      s.regs (dev.cxl_cap + PCI_CXL_CTRL) ∧
    (pci_cxl_enable_disable_feature o dev enable feature s).2.writes.map
        Prod.fst =
      s.writes.map Prod.fst ++
        [dev.cxl_cap + PCI_CXL_LOCK, dev.cxl_cap + PCI_CXL_LOCK] := by
  have hne : dev.cxl_cap + PCI_CXL_CTRL ≠ dev.cxl_cap + PCI_CXL_LOCK := by
    unfold PCI_CXL_CTRL PCI_CXL_LOCK
    omega
  simp only [pci_cxl_enable_disable_feature]
  rw [if_neg hcap, if_neg (by simp [hfn, hty])]
  cases hu : o.unlock.wr.ok <;> cases hl : o.relock.wr.ok <;>
    simp [pci_cxl_unlock, pci_cxl_lock, readWord, writeWord, hro, herr,
      hu, hl, hne]

/-- Witness for C5: concrete invocation whose control read fails with
status 5. -/
theorem gate_read_failure_skips_write_witness :
    (pci_cxl_enable_disable_feature oReadFailW devW true PCI_CXL_MEM
        sZeroW).1 = oReadFailW.ctrlRead.err ∧
    (pci_cxl_enable_disable_feature oReadFailW devW true PCI_CXL_MEM
        sZeroW).2.regs (devW.cxl_cap + PCI_CXL_CTRL) =
      sZeroW.regs (devW.cxl_cap + PCI_CXL_CTRL) ∧
    (pci_cxl_enable_disable_feature oReadFailW devW true PCI_CXL_MEM
        sZeroW).2.writes.map Prod.fst =
      sZeroW.writes.map Prod.fst ++
        [devW.cxl_cap + PCI_CXL_LOCK, devW.cxl_cap + PCI_CXL_LOCK] :=
  gate_read_failure_skips_write oReadFailW devW true PCI_CXL_MEM sZeroW
    (by decide) rfl rfl rfl (by decide)

/-- Claim C4: when the control-register read and write both succeed, the
value written to (and left in) the control register is the value read with
the feature bit set (enabling) or cleared within 16 bits (disabling); the
write attempts are exactly unlock, control, re-lock; memory-access is
bit 2 and cache-access bit 0; and in the concrete scenario (control reads
`0x0003`, enable memory-access) the traced writes are the lock register
low (0), the control register `0x0007`, the lock register high (1). -/
theorem gate_ctrl_write_modified_value (o : GateOutcome) (dev : PciDev)
    (enable : Bool) (feature : Nat) (s : RegState)
    (hcap : dev.cxl_cap ≠ 0) (hfn : dev.devfn = 0)
    (hty : dev.pcie_type = PCI_EXP_TYPE_RC_END)
    (hro : o.ctrlRead.ok = true) (hwo : o.ctrlWrite.ok = true) :
    ((pci_cxl_enable_disable_feature o dev enable feature s).2.regs
        (dev.cxl_cap + PCI_CXL_CTRL) =
      (if enable then
        (s.regs (dev.cxl_cap + PCI_CXL_CTRL) % 2 ^ 16) ||| feature
       else
        (s.regs (dev.cxl_cap + PCI_CXL_CTRL) % 2 ^ 16) &&&
          (0xffff ^^^ feature)) % 2 ^ 16 ∧
     (pci_cxl_enable_disable_feature o dev enable feature s).2.writes.map
        Prod.fst =
      s.writes.map Prod.fst ++
        [dev.cxl_cap + PCI_CXL_LOCK, dev.cxl_cap + PCI_CXL_CTRL,
         dev.cxl_cap + PCI_CXL_LOCK]) ∧
    PCI_CXL_MEM = 2 ^ 2 ∧ PCI_CXL_CACHE = 2 ^ 0 ∧
    (pci_cxl_mem_enable oAllW devW sCtrl3W).2.writes =
      [(0x40 + PCI_CXL_LOCK, 0), (0x40 + PCI_CXL_CTRL, 7),
       (0x40 + PCI_CXL_LOCK, 1)] := by
  have hne : dev.cxl_cap + PCI_CXL_CTRL ≠ dev.cxl_cap + PCI_CXL_LOCK := by
    unfold PCI_CXL_CTRL PCI_CXL_LOCK
    omega
  refine ⟨?_, by decide, by decide, by decide⟩
  simp only [pci_cxl_enable_disable_feature]
  rw [if_neg hcap, if_neg (by simp [hfn, hty])]
  cases hu : o.unlock.wr.ok <;> cases hl : o.relock.wr.ok <;>
    simp [pci_cxl_unlock, pci_cxl_lock, readWord, writeWord, hro, hwo,
      hu, hl, hne]

/-- Counterexample to C9 as stated: with the control register initially
`0x0004` (memory-access bit already set), enabling then disabling
memory-access (all transport accesses succeeding) leaves the bit cleared,
not equal to its value before the enable call. -/
theorem roundtrip_counterexample :
    ¬ (((pci_cxl_mem_disable oAllW devW
          (pci_cxl_mem_enable oAllW devW sCtrl4W).2).regs
            (devW.cxl_cap + PCI_CXL_CTRL)).testBit 2 =
        ((sCtrl4W.regs (devW.cxl_cap + PCI_CXL_CTRL)) % 2 ^ 16).testBit 2) := by
  decide

/-- Claim C9 as amended: for every initial control-register value whose
target feature bit is clear, enabling the (single-bit) feature and then
disabling it, both calls succeeding on a conforming device with no
intervening external write, leaves the control register's target feature
bit equal to its value before the enable call. -/
theorem roundtrip_restores_clear_bit (o1 o2 : GateOutcome) (dev : PciDev)
    (k : Nat) (s : RegState)
    (hcap : dev.cxl_cap ≠ 0) (hfn : dev.devfn = 0)
    (hty : dev.pcie_type = PCI_EXP_TYPE_RC_END)
    (h1 : o1.allOk) (h2 : o2.allOk)
    (hbit : (s.regs (dev.cxl_cap + PCI_CXL_CTRL)).testBit k = false) :
    ((pci_cxl_enable_disable_feature o2 dev false (2 ^ k)
        (pci_cxl_enable_disable_feature o1 dev true (2 ^ k) s).2).2.regs
          (dev.cxl_cap + PCI_CXL_CTRL)).testBit k =
      ((s.regs (dev.cxl_cap + PCI_CXL_CTRL)) % 2 ^ 16).testBit k := by
  have hne : dev.cxl_cap + PCI_CXL_CTRL ≠ dev.cxl_cap + PCI_CXL_LOCK := by
    unfold PCI_CXL_CTRL PCI_CXL_LOCK
    omega
  have h65535bit : ∀ i : Nat, (65535 : Nat).testBit i = decide (i < 16) := by
    intro i
    rw [show (65535 : Nat) = 2 ^ 16 - 1 by norm_num,
      Nat.testBit_two_pow_sub_one]
  have hmod : ∀ x i : Nat,
      (x % 65536).testBit i = (decide (i < 16) && x.testBit i) := by
    intro x i
    rw [show (65536 : Nat) = 2 ^ 16 by norm_num, Nat.testBit_mod_two_pow]
  obtain ⟨u1r, u1w, c1r, c1w, l1r, l1w⟩ := h1
  obtain ⟨u2r, u2w, c2r, c2w, l2r, l2w⟩ := h2
  simp only [pci_cxl_enable_disable_feature, pci_cxl_unlock, pci_cxl_lock,
    readWord, writeWord, u1r, u1w, c1r, c1w, l1r, l1w, u2r, u2w, c2r, c2w,
    l2r, l2w, if_true]
  rw [if_neg hcap, if_neg (by simp [hfn, hty])]
  simp [hcap, hfn, hty, hne, hmod, h65535bit, Nat.testBit_mod_two_pow,
    Nat.testBit_land, Nat.testBit_lor, Nat.testBit_xor, Nat.testBit_two_pow,
    hbit]

/-- Witness for the amended C9: memory-access bit initially clear, enable
then disable restores it. -/
theorem roundtrip_restores_clear_bit_witness :
    ((pci_cxl_enable_disable_feature oAllW devW false (2 ^ 2)
        (pci_cxl_enable_disable_feature oAllW devW true (2 ^ 2)
          sZeroW).2).2.regs (devW.cxl_cap + PCI_CXL_CTRL)).testBit 2 =
      ((sZeroW.regs (devW.cxl_cap + PCI_CXL_CTRL)) % 2 ^ 16).testBit 2 :=
  roundtrip_restores_clear_bit oAllW oAllW devW 2 sZeroW (by decide) rfl rfl
    (by decide) (by decide) (by decide)

/-- Claim C10: with both preconditions passing, a single-bit feature and
all transport accesses succeeding, the gate's write attempts are exactly
lock, control, lock; registers other than the control and lock registers
of the capability are untouched; every control-register bit other than the
target bit `k` keeps the value that was read; the unlock step changes only
bit 0 of the lock register relative to the value it read; and the re-lock
step changes only bit 0 of the lock register relative to the value it read
(the post-unlock value). -/
theorem gate_frame_effect (o : GateOutcome) (dev : PciDev) (enable : Bool)
    (k : Nat) (s : RegState)
    (hcap : dev.cxl_cap ≠ 0) (hfn : dev.devfn = 0)
    (hty : dev.pcie_type = PCI_EXP_TYPE_RC_END) (hk : k < 16)
    (hok : o.allOk) :
    ((pci_cxl_enable_disable_feature o dev enable (2 ^ k) s).2.writes.map
        Prod.fst =
      s.writes.map Prod.fst ++
        [dev.cxl_cap + PCI_CXL_LOCK, dev.cxl_cap + PCI_CXL_CTRL,
         dev.cxl_cap + PCI_CXL_LOCK]) ∧
    (∀ a, a ≠ dev.cxl_cap + PCI_CXL_CTRL → a ≠ dev.cxl_cap + PCI_CXL_LOCK →
      (pci_cxl_enable_disable_feature o dev enable (2 ^ k) s).2.regs a =
        s.regs a) ∧
    (∀ i, i ≠ k →
      ((pci_cxl_enable_disable_feature o dev enable (2 ^ k) s).2.regs
          (dev.cxl_cap + PCI_CXL_CTRL)).testBit i =
        ((s.regs (dev.cxl_cap + PCI_CXL_CTRL)) % 2 ^ 16).testBit i) ∧
    (∀ i, i ≠ 0 →
      ((pci_cxl_unlock o.unlock dev.cxl_cap s).regs
          (dev.cxl_cap + PCI_CXL_LOCK)).testBit i =
        ((s.regs (dev.cxl_cap + PCI_CXL_LOCK)) % 2 ^ 16).testBit i) ∧
    (∀ i, i ≠ 0 →
      ((pci_cxl_enable_disable_feature o dev enable (2 ^ k) s).2.regs
          (dev.cxl_cap + PCI_CXL_LOCK)).testBit i =
        (((pci_cxl_unlock o.unlock dev.cxl_cap s).regs
            (dev.cxl_cap + PCI_CXL_LOCK)) % 2 ^ 16).testBit i) := by
  have hne : dev.cxl_cap + PCI_CXL_CTRL ≠ dev.cxl_cap + PCI_CXL_LOCK := by
    unfold PCI_CXL_CTRL PCI_CXL_LOCK
    omega
  have h65535bit : ∀ i : Nat, (65535 : Nat).testBit i = decide (i < 16) := by
    intro i
    rw [show (65535 : Nat) = 2 ^ 16 - 1 by norm_num,
      Nat.testBit_two_pow_sub_one]
  have hmod : ∀ x i : Nat,
      (x % 65536).testBit i = (decide (i < 16) && x.testBit i) := by
    intro x i
    rw [show (65536 : Nat) = 2 ^ 16 by norm_num, Nat.testBit_mod_two_pow]
  have h65534 : ∀ i : Nat, i ≠ 0 → Nat.testBit 65534 i = decide (i < 16) := by
    intro i hi
    rw [show (65534 : Nat) = 65535 ^^^ 1 by decide, Nat.testBit_xor,
      h65535bit, show (1 : Nat) = 2 ^ 0 by norm_num, Nat.testBit_two_pow]
    simp [Ne.symm hi]
  have h1bit : ∀ i : Nat, i ≠ 0 → Nat.testBit 1 i = false := by
    intro i hi
    rw [show (1 : Nat) = 2 ^ 0 by norm_num, Nat.testBit_two_pow]
    simp [Ne.symm hi]
  have hne2 : PCI_CXL_LOCK ≠ PCI_CXL_CTRL := by decide
  obtain ⟨ur, uw, cr, cw, lr, lw⟩ := hok
  refine ⟨?_, ?_, ?_, ?_, ?_⟩
  · simp only [pci_cxl_enable_disable_feature, pci_cxl_unlock, pci_cxl_lock,
      readWord, writeWord, ur, uw, cr, cw, lr, lw, if_true]
    rw [if_neg hcap, if_neg (by simp [hfn, hty])]
    simp [cr]
  · intro a ha hb
    simp only [pci_cxl_enable_disable_feature, pci_cxl_unlock, pci_cxl_lock,
      readWord, writeWord, ur, uw, cr, cw, lr, lw, if_true]
    rw [if_neg hcap, if_neg (by simp [hfn, hty])]
    simp [cr, ha, hb]
  · intro i hi
    have hki : (decide (k = i)) = false := by simp [Ne.symm hi]
    simp only [pci_cxl_enable_disable_feature, pci_cxl_unlock, pci_cxl_lock,
      readWord, writeWord, ur, uw, cr, cw, lr, lw, if_true]
    rw [if_neg hcap, if_neg (by simp [hfn, hty])]
    simp [cr, hne, hmod, h65535bit, Nat.testBit_mod_two_pow,
      Nat.testBit_land, Nat.testBit_lor, Nat.testBit_xor,
      Nat.testBit_two_pow, hki, apply_ite (fun x : Nat => Nat.testBit x i)]
    cases h : decide (i < 16) <;> simp [h]
  · intro i hi
    simp only [pci_cxl_unlock, readWord, writeWord, ur, uw, if_true]
    simp [hmod, h65535bit, h65534 i hi, Nat.testBit_mod_two_pow,
      Nat.testBit_land, Nat.testBit_lor, Nat.testBit_xor,
      Nat.testBit_two_pow, PCI_CXL_CONFIG_LOCK, BIT, Nat.one_shiftLeft]
    cases h : decide (i < 16) <;> simp [h]
  · intro i hi
    simp only [pci_cxl_enable_disable_feature, pci_cxl_unlock, pci_cxl_lock,
      readWord, writeWord, ur, uw, cr, cw, lr, lw, if_true]
    rw [if_neg hcap, if_neg (by simp [hfn, hty])]
    simp [cr, hne, hne2, Ne.symm hne, hmod, h65535bit, h65534 i hi,
      h1bit i hi, Nat.testBit_mod_two_pow, Nat.testBit_land,
      Nat.testBit_lor, Nat.testBit_xor, Nat.testBit_two_pow,
      PCI_CXL_CONFIG_LOCK, BIT, Nat.one_shiftLeft]

/-- Witness for C10: the frame conditions at a concrete all-succeeding
invocation enabling bit 2 on a conforming device. -/
theorem gate_frame_effect_witness :
    ((pci_cxl_enable_disable_feature oAllW devW true (2 ^ 2)
        sZeroW).2.writes.map Prod.fst =
      sZeroW.writes.map Prod.fst ++
        [devW.cxl_cap + PCI_CXL_LOCK, devW.cxl_cap + PCI_CXL_CTRL,
         devW.cxl_cap + PCI_CXL_LOCK]) ∧
    (∀ a, a ≠ devW.cxl_cap + PCI_CXL_CTRL → a ≠ devW.cxl_cap + PCI_CXL_LOCK →
      (pci_cxl_enable_disable_feature oAllW devW true (2 ^ 2)
          sZeroW).2.regs a = sZeroW.regs a) ∧
    (∀ i, i ≠ 2 →
      ((pci_cxl_enable_disable_feature oAllW devW true (2 ^ 2)
          sZeroW).2.regs (devW.cxl_cap + PCI_CXL_CTRL)).testBit i =
        ((sZeroW.regs (devW.cxl_cap + PCI_CXL_CTRL)) % 2 ^ 16).testBit i) ∧
    (∀ i, i ≠ 0 →
      ((pci_cxl_unlock oAllW.unlock devW.cxl_cap sZeroW).regs
          (devW.cxl_cap + PCI_CXL_LOCK)).testBit i =
        ((sZeroW.regs (devW.cxl_cap + PCI_CXL_LOCK)) % 2 ^ 16).testBit i) ∧
    (∀ i, i ≠ 0 →
      ((pci_cxl_enable_disable_feature oAllW devW true (2 ^ 2)
          sZeroW).2.regs (devW.cxl_cap + PCI_CXL_LOCK)).testBit i =
        (((pci_cxl_unlock oAllW.unlock devW.cxl_cap sZeroW).regs
            (devW.cxl_cap + PCI_CXL_LOCK)) % 2 ^ 16).testBit i) :=
  gate_frame_effect oAllW devW true 2 sZeroW (by decide) rfl rfl
    (by decide) (by decide)

/-- Witness for C4: concrete all-succeeding memory-access enable on
control value 3. -/
theorem gate_ctrl_write_modified_value_witness :
    ((pci_cxl_enable_disable_feature oAllW devW true PCI_CXL_MEM
        sCtrl3W).2.regs (devW.cxl_cap + PCI_CXL_CTRL) =
      (if (true : Bool) then
        (sCtrl3W.regs (devW.cxl_cap + PCI_CXL_CTRL) % 2 ^ 16) ||| PCI_CXL_MEM
       else
        (sCtrl3W.regs (devW.cxl_cap + PCI_CXL_CTRL) % 2 ^ 16) &&&
          (0xffff ^^^ PCI_CXL_MEM)) % 2 ^ 16 ∧
     (pci_cxl_enable_disable_feature oAllW devW true PCI_CXL_MEM
        sCtrl3W).2.writes.map Prod.fst =
      sCtrl3W.writes.map Prod.fst ++
        [devW.cxl_cap + PCI_CXL_LOCK, devW.cxl_cap + PCI_CXL_CTRL,
         devW.cxl_cap + PCI_CXL_LOCK]) ∧
    PCI_CXL_MEM = 2 ^ 2 ∧ PCI_CXL_CACHE = 2 ^ 0 ∧
    (pci_cxl_mem_enable oAllW devW sCtrl3W).2.writes =
      [(0x40 + PCI_CXL_LOCK, 0), (0x40 + PCI_CXL_CTRL, 7),
       (0x40 + PCI_CXL_LOCK, 1)] :=
  gate_ctrl_write_modified_value oAllW devW true PCI_CXL_MEM sCtrl3W
    (by decide) rfl rfl rfl rfl
